import Mathlib

/-!
Shallow embedding of the collaborative room coordinator of KodesCRU
(`src/room_manager.py` and the room endpoints of `src/main.py`).

Python dictionaries are modelled as association lists that preserve
insertion order (update keeps the key's position, a new key is appended),
sets of websocket connections as duplicate-free lists, and websockets as
natural numbers.  The two sources of nondeterminism are determinized:
`uuid.uuid4()` becomes a counter `next_uuid` threaded through the state
(each generated id is the decimal print of a fresh counter value), and
`datetime.utcnow().isoformat()` becomes an explicit `now : String`
argument of the operations that read the clock.  The outcome of
`await ws.send_json(...)` in `broadcast_to_room` is an oracle
`sendOk : Conn → Bool` saying which connections accept the send.
-/

/-- A live websocket connection, identified by an opaque token. -/
def Conn : Type := Nat

instance : DecidableEq Conn := instDecidableEqNat
instance : OfNat Conn n := ⟨(n : Nat)⟩
instance : Repr Conn := instReprNat

/-- Dictionary lookup (`d.get(k)`) on an insertion-ordered association list. -/
def alookup {α β : Type} [DecidableEq α] : List (α × β) → α → Option β
  | [], _ => none
  | p :: rest, k => if p.1 = k then some p.2 else alookup rest k

/-- Dictionary assignment `d[k] = v`: replace in place if the key is present,
append at the end otherwise (Python dicts preserve insertion order). -/
def ainsert {α β : Type} [DecidableEq α] : List (α × β) → α → β → List (α × β)
  | [], k, v => [(k, v)]
  | p :: rest, k, v => if p.1 = k then (k, v) :: rest else p :: ainsert rest k v

/-- Dictionary removal `d.pop(k, None)` / `del d[k]` (the value is dropped). -/
def aerase {α β : Type} [DecidableEq α] : List (α × β) → α → List (α × β)
  | [], _ => []
  | p :: rest, k => if p.1 = k then aerase rest k else p :: aerase rest k

/-- A user identity inside a room (`User` dataclass). -/
structure User where
  id : String
  name : String
  color : String
  is_host : Bool := false
  joined_at : String
deriving DecidableEq, Repr

/-- `User.to_dict` (`dataclasses.asdict`) is the identity on this record. -/
def User.to_dict (u : User) : User := u

/-- A collaborative coding room (`Room` dataclass).  `users` is the
insertion-ordered dictionary from user id to `User`. -/
structure Room where
  id : String
  name : String
  host_id : String
  language : String
  code : String
  created_at : String
  max_users : Int := 10
  is_public : Bool := true
  users : List (String × User) := []
deriving DecidableEq, Repr

/-- The JSON snapshot produced by `Room.to_dict`. -/
structure RoomDict where
  id : String
  name : String
  host_id : String
  language : String
  code : String
  created_at : String
  max_users : Int
  is_public : Bool
  users : List User
  user_count : Nat
deriving DecidableEq, Repr

/-- `Room.to_dict`: the snapshot lists the users in mapping order and
reports `user_count = len(self.users)`. -/
def Room.to_dict (room : Room) : RoomDict :=
  { id := room.id
    name := room.name
    host_id := room.host_id
    language := room.language
    code := room.code
    created_at := room.created_at
    max_users := room.max_users
    is_public := room.is_public
    users := room.users.map (fun p => p.2.to_dict)
    user_count := room.users.length }

/-- The fixed cursor-color palette `self.user_colors`. -/
def user_colors : List String :=
  ["#FF6B6B", "#4ECDC4", "#45B7D1", "#FFA07A",
   "#98D8C8", "#F7DC6F", "#BB8FCE", "#85C1E2",
   "#F8B739", "#52B788", "#E76F51", "#2A9D8F"]

/-- The whole mutable state of a `RoomManager` instance. -/
structure RoomManager where
  rooms : List (String × Room)
  connections : List (String × List Conn)
  user_rooms : List (String × String)
  ws_users : List (Conn × String)
  color_index : Nat
  next_uuid : Nat
deriving DecidableEq, Repr

/-- `RoomManager.__init__`: all maps empty, color counter at 0. -/
def RoomManager.init : RoomManager :=
  { rooms := []
    connections := []
    user_rooms := []
    ws_users := []
    color_index := 0
    next_uuid := 0 }

/-- `generate_room_id`: a fresh opaque token from the uuid supply. -/
def generate_room_id (s : RoomManager) : String × RoomManager :=
  (toString s.next_uuid, { s with next_uuid := s.next_uuid + 1 })

/-- `generate_user_id`: a fresh opaque token from the uuid supply. -/
def generate_user_id (s : RoomManager) : String × RoomManager :=
  (toString s.next_uuid, { s with next_uuid := s.next_uuid + 1 })

/-- `get_user_color`: next palette entry, round robin on a shared counter. -/
def get_user_color (s : RoomManager) : String × RoomManager :=
  (user_colors.getD (s.color_index % user_colors.length) "",
   { s with color_index := s.color_index + 1 })

/-- `get_room`: dictionary lookup in the registry. -/
def get_room (s : RoomManager) (room_id : String) : Option Room :=
  alookup s.rooms room_id

/-- `get_connections`: `self.connections.get(room_id, set())`. -/
def get_connections (s : RoomManager) (room_id : String) : List Conn :=
  (alookup s.connections room_id).getD []

/-- `self.connections[room_id].add(ws)`: `connections` is a
`defaultdict(set)`, so the entry is created when missing and the
connection is added at most once. -/
def connAdd (c : List (String × List Conn)) (room_id : String) (ws : Conn) :
    List (String × List Conn) :=
  let cur := (alookup c room_id).getD []
  ainsert c room_id (if ws ∈ cur then cur else cur ++ [ws])

/-- `self.connections[room_id].discard(ws)` (defaultdict access, so a
missing entry is created empty). -/
def connDiscard (c : List (String × List Conn)) (room_id : String) (ws : Conn) :
    List (String × List Conn) :=
  let cur := (alookup c room_id).getD []
  ainsert c room_id (cur.filter (fun w => w ≠ ws))

/-- `RoomManager.create_room`: allocate a room id, a host user id and a
color, build the host user and the room (whose user mapping holds exactly
the host), store the room, return it. -/
def create_room (s : RoomManager) (name host_name : String)
    (language : String) (code : String) (max_users : Int)
    (is_public : Bool) (now : String) : RoomManager × Room :=
  let (room_id, s1) := generate_room_id s
  let (host_id, s2) := generate_user_id s1
  let (color, s3) := get_user_color s2
  let host : User :=
    { id := host_id, name := host_name, color := color,
      is_host := true, joined_at := now }
  let room : Room :=
    { id := room_id, name := name, host_id := host_id,
      language := language, code := code, created_at := now,
      max_users := max_users, is_public := is_public,
      users := [(host_id, host)] }
  ({ s3 with rooms := ainsert s3.rooms room_id room }, room)

/-- `RoomManager.delete_room`: pop every user of the room from
`user_rooms`, drop the room's connection set, delete the room; `false`
when the room does not exist. -/
def delete_room (s : RoomManager) (room_id : String) : RoomManager × Bool :=
  match alookup s.rooms room_id with
  | some room =>
    let s1 := { s with
      user_rooms := room.users.foldl
        (fun ur (p : String × User) => aerase ur p.1) s.user_rooms }
    let s2 := { s1 with connections := aerase s1.connections room_id }
    let s3 := { s2 with rooms := aerase s2.rooms room_id }
    (s3, true)
  | none => (s, false)

/-- The tail of `join_room` after the reconnect check failed: host
re-join by display name, else create a new participant. -/
def join_as_host_or_new (s : RoomManager) (room : Room) (room_id : String)
    (user_name : String) (ws : Conn) (now : String) : RoomManager × Option User :=
  match room.users.find? (fun p => p.2.name == user_name && p.2.is_host) with
  | some hp =>
    let user := hp.2
    let s1 := { s with connections := connAdd s.connections room_id ws }
    let s2 := { s1 with ws_users := ainsert s1.ws_users ws user.id }
    let s3 :=
      if (alookup s2.user_rooms user.id).isSome then s2
      else { s2 with user_rooms := ainsert s2.user_rooms user.id room_id }
    (s3, some user)
  | none =>
    let (user_id, sA) := generate_user_id s
    let (color, sB) := get_user_color sA
    let user : User :=
      { id := user_id, name := user_name, color := color,
        is_host := false, joined_at := now }
    let room' := { room with users := ainsert room.users user_id user }
    let sC := { sB with rooms := ainsert sB.rooms room_id room' }
    let sD := { sC with user_rooms := ainsert sC.user_rooms user_id room_id }
    let sE := { sD with connections := connAdd sD.connections room_id ws }
    let sF := { sE with ws_users := ainsert sE.ws_users ws user_id }
    (sF, some user)

/-- `RoomManager.join_room`: absent room → absent; full room → absent
(this check precedes every other path); a connection already associated
with a member of this room reconnects; otherwise host re-join by name or
a brand-new participant. -/
def join_room (s : RoomManager) (room_id : String) (user_name : String)
    (ws : Conn) (now : String) : RoomManager × Option User :=
  match get_room s room_id with
  | none => (s, none)
  | some room =>
    if (room.users.length : Int) ≥ room.max_users then (s, none)
    else
      match alookup s.ws_users ws with
      | some existing_user_id =>
        match alookup room.users existing_user_id with
        | some user =>
          ({ s with connections := connAdd s.connections room_id ws }, some user)
        | none => join_as_host_or_new s room room_id user_name ws now
      | none => join_as_host_or_new s room room_id user_name ws now

/-- `RoomManager.leave_room`: no associated user → absent (a pure no-op);
otherwise pop the user from its room, clear all back-references of the
connection, and delete the room when its user mapping became empty.  The
second component of the returned pair mirrors Python's
`room.users.pop(user_id, None)`, which can be `None`. -/
def leave_room (s : RoomManager) (ws : Conn) :
    RoomManager × Option (String × Option User) :=
  match alookup s.ws_users ws with
  | none => (s, none)
  | some user_id =>
    match alookup s.user_rooms user_id with
    | none => (s, none)
    | some room_id =>
      match get_room s room_id with
      | none => (s, none)
      | some room =>
        let popped := alookup room.users user_id
        let room' := { room with users := aerase room.users user_id }
        let s1 := { s with rooms := ainsert s.rooms room_id room' }
        let s2 := { s1 with user_rooms := aerase s1.user_rooms user_id }
        let s3 := { s2 with connections := connDiscard s2.connections room_id ws }
        let s4 := { s3 with ws_users := aerase s3.ws_users ws }
        let s5 := if room'.users.length = 0 then (delete_room s4 room_id).1 else s4
        (s5, some (room_id, popped))

/-- `RoomManager.update_code`: last-writer-wins replacement of the code
buffer; `false` when the room is absent. -/
def update_code (s : RoomManager) (room_id : String) (code : String) :
    RoomManager × Bool :=
  match get_room s room_id with
  | some room =>
    ({ s with rooms := ainsert s.rooms room_id { room with code := code } }, true)
  | none => (s, false)

/-- `RoomManager.update_language`: last-writer-wins replacement of the
language tag; `false` when the room is absent. -/
def update_language (s : RoomManager) (room_id : String) (language : String) :
    RoomManager × Bool :=
  match get_room s room_id with
  | some room =>
    ({ s with rooms := ainsert s.rooms room_id { room with language := language } },
     true)
  | none => (s, false)

/-- `RoomManager.get_room_users`: the room's users, empty when absent. -/
def get_room_users (s : RoomManager) (room_id : String) : List User :=
  match get_room s room_id with
  | some room => room.users.map (fun p => p.2)
  | none => []

/-- `RoomManager.get_public_rooms`: snapshots of all public rooms. -/
def get_public_rooms (s : RoomManager) : List RoomDict :=
  (s.rooms.map (fun p => p.2)).filterMap
    (fun room => if room.is_public then some room.to_dict else none)

/-- The send loop of `broadcast_to_room`: walk the room's connection
list, skip the excluded connection, attempt the send on every other one;
return the successfully sent connections and the failed ones. -/
def sweep (exclude_ws : Option Conn) (sendOk : Conn → Bool) :
    List Conn → List Conn × List Conn
  | [] => ([], [])
  | ws :: rest =>
    let (sent, disconnected) := sweep exclude_ws sendOk rest
    if some ws = exclude_ws then (sent, disconnected)
    else if sendOk ws then (ws :: sent, disconnected)
    else (sent, ws :: disconnected)

/-- `RoomManager.broadcast_to_room`: attempt a send to every connection
of the room except `exclude_ws`; collect the failures; after the sweep,
pass each failed connection to `leave_room`.  Returns the new state and
the list of connections the message reached. -/
def broadcast_to_room (s : RoomManager) (room_id : String)
    (exclude_ws : Option Conn) (sendOk : Conn → Bool) :
    RoomManager × List Conn :=
  let conns := get_connections s room_id
  let (sent, disconnected) := sweep exclude_ws sendOk conns
  (disconnected.foldl (fun st ws => (leave_room st ws).1) s, sent)

/-- Outcome of `POST /rooms/create` (`src/main.py`). -/
inductive CreateRoomResponse where
  | ok (room : RoomDict)
  | validationError
deriving DecidableEq, Repr

/-- `POST /rooms/create`: FastAPI validates the `CreateRoomRequest`
model first — `name` and `host_name` non-empty, `max_users` within
[2, 50] (`Field(..., ge=2, le=50)`) — and rejects the request before the
manager is touched; a valid request is handed to `create_room` and the
room snapshot is returned. -/
def create_room_endpoint (s : RoomManager) (name host_name : String)
    (language : String) (code : String) (max_users : Int)
    (is_public : Bool) (now : String) : RoomManager × CreateRoomResponse :=
  if 1 ≤ name.length ∧ 1 ≤ host_name.length ∧ 2 ≤ max_users ∧ max_users ≤ 50 then
    let (s', room) := create_room s name host_name language code max_users is_public now
    (s', .ok room.to_dict)
  else
    (s, .validationError)

/-- Outcome of `DELETE /rooms/{room_id}` (`src/main.py`). -/
inductive DeleteRoomResponse where
  | deleted
  | notFound
  | forbidden
  | serverError
deriving DecidableEq, Repr

/-- `DELETE /rooms/{room_id}`: 404 when the room is absent, 403 when it
still has users, otherwise `delete_room` (500 if that reports failure). -/
def delete_room_endpoint (s : RoomManager) (room_id : String) :
    RoomManager × DeleteRoomResponse :=
  match get_room s room_id with
  | none => (s, .notFound)
  | some room =>
    if room.users.length > 0 then (s, .forbidden)
    else
      let (s', ok) := delete_room s room_id
      if ok then (s', .deleted) else (s', .serverError)

/-- One externally triggerable mutation of the coordinator state: any
public `RoomManager` method reachable from the websocket handler or the
REST endpoints, with arbitrary arguments. -/
inductive Step : RoomManager → RoomManager → Prop where
  | create (s : RoomManager) (name host_name language code : String)
      (max_users : Int) (is_public : Bool) (now : String) :
      Step s (create_room s name host_name language code max_users is_public now).1
  | join (s : RoomManager) (room_id user_name : String) (ws : Conn) (now : String) :
      Step s (join_room s room_id user_name ws now).1
  | leave (s : RoomManager) (ws : Conn) :
      Step s (leave_room s ws).1
  | updCode (s : RoomManager) (room_id code : String) :
      Step s (update_code s room_id code).1
  | updLang (s : RoomManager) (room_id language : String) :
      Step s (update_language s room_id language).1
  | del (s : RoomManager) (room_id : String) :
      Step s (delete_room s room_id).1
  | bcast (s : RoomManager) (room_id : String) (exclude_ws : Option Conn)
      (sendOk : Conn → Bool) :
      Step s (broadcast_to_room s room_id exclude_ws sendOk).1

/-- The reachable coordinator states: the freshly initialised manager and
everything producible from it by `Step`s. -/
inductive Reachable : RoomManager → Prop where
  | init : Reachable RoomManager.init
  | step {s s' : RoomManager} : Reachable s → Step s s' → Reachable s'

/-- The registry invariant: every registered room has a non-empty user
mapping. -/
def RegistryInv (s : RoomManager) : Prop :=
  ∀ rid room, alookup s.rooms rid = some room → room.users ≠ []

/-- A room already at capacity, used as a concrete input. -/
def roomFullW : Room :=
  { id := "f", name := "full", host_id := "h", language := "Python", code := "",
    created_at := "t", max_users := 0, is_public := true, users := [] }

/-- A manager holding only `roomFullW`. -/
def sFullW : RoomManager :=
  { RoomManager.init with rooms := [("f", roomFullW)] }

/-- Capacity-2 room created by Alice. -/
def sDemo1 : RoomManager :=
  (create_room RoomManager.init "demo" "Alice" "Python" "" 2 true "t0").1

/-- The same room after Bob joined on websocket 0: now full (2 of 2). -/
def sDemo2 : RoomManager :=
  (join_room sDemo1 "0" "Bob" 0 "t1").1

/-- Cross-room trace: room "0" (host Alice) with Bob on websocket 0. -/
def sX2 : RoomManager :=
  (join_room (create_room RoomManager.init "A" "Alice" "Python" "" 10 true "t").1
    "0" "Bob" 0 "t").1

/-- ... plus a second room "3" (host Dana). -/
def sX3 : RoomManager :=
  (create_room sX2 "B" "Dana" "Python" "" 10 true "t").1

/-- ... after websocket 0 also joined room "3" as Carol: the connection
is now in both rooms' connection sets. -/
def sX4 : RoomManager :=
  (join_room sX3 "3" "Carol" 0 "t").1

/-- Room "0" created by Alice (capacity 10). -/
def sA1 : RoomManager :=
  (create_room RoomManager.init "demo" "Alice" "Python" "" 10 true "t").1

/-- ... after a connection joined under the host name "Alice". -/
def sA2 : RoomManager :=
  (join_room sA1 "0" "Alice" 0 "t").1

/-- The host user of `sA1`/`sA2`. -/
def aliceA : User :=
  { id := "1", name := "Alice", color := "#FF6B6B", is_host := true, joined_at := "t" }

/-- The single room of `sA1`/`sA2`. -/
def roomA2 : Room :=
  { id := "0", name := "demo", host_id := "1", language := "Python", code := "",
    created_at := "t", max_users := 10, is_public := true,
    users := [("1", aliceA)] }

/-- The state after the host's leave emptied and deleted room "0". -/
def sFinalA : RoomManager :=
  { rooms := [], connections := [], user_rooms := [], ws_users := [],
    color_index := 1, next_uuid := 2 }

/-- Host user of the broadcast witness room. -/
def userW : User :=
  { id := "u0", name := "Wendy", color := "#FF6B6B", is_host := true, joined_at := "t" }

/-- Broadcast witness room: one user, two attached connections. -/
def roomW : Room :=
  { id := "r", name := "w", host_id := "u0", language := "Python", code := "",
    created_at := "t", max_users := 10, is_public := true, users := [("u0", userW)] }

/-- Manager for the broadcast witness: websocket 0 is associated with the
room's only user, websocket 1 is attached but unassociated. -/
def sW : RoomManager :=
  { rooms := [("r", roomW)], connections := [("r", [0, 1])],
    user_rooms := [("u0", "r")], ws_users := [(0, "u0")],
    color_index := 0, next_uuid := 0 }

/-- Send oracle for the broadcast witness: only websocket 0 fails. -/
def sendW : Conn → Bool := fun c => decide (¬ c = 0)

/-- The new user created when websocket 0 joins room "3" of `sX3`. -/
def carolX : User :=
  { id := "5", name := "Carol", color := "#FFA07A", is_host := false, joined_at := "t" }

theorem alookup_ainsert {α β : Type} [DecidableEq α]
    (l : List (α × β)) (k : α) (v : β) (k' : α) :
    alookup (ainsert l k v) k' = if k = k' then some v else alookup l k' := by
  induction l with
  | nil => simp [ainsert, alookup]
  | cons p rest ih =>
    simp only [ainsert]
    by_cases hp : p.1 = k
    · subst hp
      by_cases hk : p.1 = k' <;> simp [alookup, hk]
    · simp only [if_neg hp, alookup]
      by_cases hpk : p.1 = k'
      · have hkk : ¬ k = k' := fun h => hp (by rw [h, hpk])
        simp [hpk, hkk]
      · simp [hpk, ih]

theorem alookup_aerase {α β : Type} [DecidableEq α]
    (l : List (α × β)) (k : α) (k' : α) :
    alookup (aerase l k) k' = if k = k' then none else alookup l k' := by
  induction l with
  | nil => simp [aerase, alookup]
  | cons p rest ih =>
    simp only [aerase]
    by_cases hp : p.1 = k
    · rw [if_pos hp, ih]
      subst hp
      by_cases hk : p.1 = k' <;> simp [alookup, hk]
    · simp only [if_neg hp, alookup]
      by_cases hpk : p.1 = k'
      · have hkk : ¬ k = k' := fun h => hp (by rw [h, hpk])
        simp [hpk, hkk]
      · simp [hpk, ih]

theorem ainsert_ne_nil {α β : Type} [DecidableEq α]
    (l : List (α × β)) (k : α) (v : β) : ainsert l k v ≠ [] := by
  cases l with
  | nil => simp [ainsert]
  | cons p rest =>
    by_cases hp : p.1 = k <;> simp [ainsert, hp]

theorem inv_init : RegistryInv RoomManager.init := by
  intro rid room h
  simp [RoomManager.init, alookup] at h

theorem inv_create (s : RoomManager) (name host_name language code : String)
    (max_users : Int) (is_public : Bool) (now : String) (h : RegistryInv s) :
    RegistryInv (create_room s name host_name language code max_users is_public now).1 := by
  intro rid room hlook
  simp only [create_room, alookup_ainsert] at hlook
  split at hlook
  · cases hlook
    simp
  · exact h _ _ hlook

theorem inv_update_code (s : RoomManager) (room_id code : String) (h : RegistryInv s) :
    RegistryInv (update_code s room_id code).1 := by
  unfold update_code
  split
  · rename_i room hroom
    intro rid' room' hlook
    simp only [alookup_ainsert] at hlook
    split at hlook
    · cases hlook
      show room.users ≠ []
      exact h _ _ hroom
    · exact h _ _ hlook
  · exact h

theorem inv_update_language (s : RoomManager) (room_id language : String)
    (h : RegistryInv s) : RegistryInv (update_language s room_id language).1 := by
  unfold update_language
  split
  · rename_i room hroom
    intro rid' room' hlook
    simp only [alookup_ainsert] at hlook
    split at hlook
    · cases hlook
      show room.users ≠ []
      exact h _ _ hroom
    · exact h _ _ hlook
  · exact h

/-- Registry lookups after `delete_room`: the deleted id is gone, every
other id is untouched. -/
theorem delete_room_rooms_lookup (s : RoomManager) (rid rid' : String) :
    alookup (delete_room s rid).1.rooms rid' =
      if rid = rid' then none else alookup s.rooms rid' := by
  unfold delete_room
  split
  · rename_i room hroom
    simp only [alookup_aerase]
  · rename_i hnone
    by_cases heq : rid = rid'
    · subst heq
      simp [hnone]
    · simp [heq]

theorem inv_delete (s : RoomManager) (room_id : String) (h : RegistryInv s) :
    RegistryInv (delete_room s room_id).1 := by
  intro rid' room' hlook
  rw [delete_room_rooms_lookup] at hlook
  split at hlook
  · exact absurd hlook (by simp)
  · exact h _ _ hlook

theorem inv_join_aux (s : RoomManager) (room : Room) (room_id user_name : String)
    (ws : Conn) (now : String) (h : RegistryInv s) :
    RegistryInv (join_as_host_or_new s room room_id user_name ws now).1 := by
  unfold join_as_host_or_new
  split
  · intro rid' room' hlook
    simp only at hlook
    split at hlook
    · exact h _ _ hlook
    · exact h _ _ hlook
  · intro rid' room' hlook
    simp only [alookup_ainsert] at hlook
    split at hlook
    · cases hlook
      exact ainsert_ne_nil _ _ _
    · exact h _ _ hlook

theorem inv_join (s : RoomManager) (room_id user_name : String) (ws : Conn)
    (now : String) (h : RegistryInv s) : RegistryInv (join_room s room_id user_name ws now).1 := by
  unfold join_room
  split
  · exact h
  · split
    · exact h
    · split
      · split
        · exact h
        · exact inv_join_aux _ _ _ _ _ _ h
      · exact inv_join_aux _ _ _ _ _ _ h

theorem inv_leave (s : RoomManager) (ws : Conn) (h : RegistryInv s) :
    RegistryInv (leave_room s ws).1 := by
  unfold leave_room
  split
  · exact h
  · rename_i uid huid
    split
    · exact h
    · rename_i rid hrid
      split
      · exact h
      · rename_i room hroom
        intro rid' room'' hlook
        simp only at hlook
        split at hlook
        · rename_i hlen
          rw [delete_room_rooms_lookup] at hlook
          split at hlook
          · exact absurd hlook (by simp)
          · rename_i hne
            simp only [alookup_ainsert] at hlook
            rw [if_neg hne] at hlook
            exact h _ _ hlook
        · rename_i hlen
          simp only [alookup_ainsert] at hlook
          split at hlook
          · cases hlook
            intro hnil
            exact hlen (by simpa using congrArg List.length hnil)
          · exact h _ _ hlook

theorem inv_foldl_leave (l : List Conn) (s : RoomManager) (h : RegistryInv s) :
    RegistryInv (l.foldl (fun st ws => (leave_room st ws).1) s) := by
  induction l generalizing s with
  | nil => exact h
  | cons ws rest ih => exact ih _ (inv_leave s ws h)

theorem inv_broadcast (s : RoomManager) (room_id : String)
    (exclude_ws : Option Conn) (sendOk : Conn → Bool) (h : RegistryInv s) :
    RegistryInv (broadcast_to_room s room_id exclude_ws sendOk).1 := by
  unfold broadcast_to_room
  rcases hsw : sweep exclude_ws sendOk (get_connections s room_id) with ⟨sent, disc⟩
  simp only [hsw]
  exact inv_foldl_leave _ _ h

theorem inv_step {s s' : RoomManager} (hs : Step s s') (h : RegistryInv s) : RegistryInv s' := by
  cases hs with
  | create name host_name language code max_users is_public now =>
    exact inv_create s name host_name language code max_users is_public now h
  | join room_id user_name ws now => exact inv_join s room_id user_name ws now h
  | leave ws => exact inv_leave s ws h
  | updCode room_id code => exact inv_update_code s room_id code h
  | updLang room_id language => exact inv_update_language s room_id language h
  | del room_id => exact inv_delete s room_id h
  | bcast room_id exclude_ws sendOk => exact inv_broadcast s room_id exclude_ws sendOk h

theorem inv_reachable {s : RoomManager} (h : Reachable s) : RegistryInv s := by
  induction h with
  | init => exact inv_init
  | step _ hstep ih => exact inv_step hstep ih

theorem aerase_singleton {α β : Type} [DecidableEq α] (l : List (α × β)) (k : α)
    (v : β) (hl : alookup l k = some v) (hlen : l.length = 1) : aerase l k = [] := by
  cases l with
  | nil => cases hl
  | cons p rest =>
    cases rest with
    | nil =>
      by_cases hp : p.1 = k
      · simp [aerase, hp]
      · simp [alookup, hp] at hl
    | cons q tail => simp at hlen

/-- Adding a connection to a room's set leaves every other room's entry alone. -/
theorem connAdd_other (c : List (String × List Conn)) (rid rid' : String)
    (ws : Conn) (h : ¬ rid = rid') :
    alookup (connAdd c rid ws) rid' = alookup c rid' := by
  unfold connAdd
  rw [alookup_ainsert, if_neg h]

/-- After `connAdd`, the connection is in the room's set. -/
theorem mem_connAdd_self (c : List (String × List Conn)) (rid : String) (ws : Conn) :
    ws ∈ (alookup (connAdd c rid ws) rid).getD [] := by
  unfold connAdd
  rw [alookup_ainsert, if_pos rfl]
  split
  · rename_i hmem
    simpa using hmem
  · simp

/-- After `connDiscard`, the connection is not in the room's set. -/
theorem not_mem_connDiscard (c : List (String × List Conn)) (rid : String) (ws : Conn) :
    ws ∉ (alookup (connDiscard c rid ws) rid).getD [] := by
  unfold connDiscard
  rw [alookup_ainsert, if_pos rfl]
  simp [List.mem_filter]

/-- `delete_room` on a present room drops its connection-set entry. -/
theorem delete_room_connections (s : RoomManager) (rid : String) (room : Room)
    (h : alookup s.rooms rid = some room) :
    (delete_room s rid).1.connections = aerase s.connections rid := by
  unfold delete_room
  rw [h]

/-- `delete_room` never touches the websocket-to-user map. -/
theorem delete_room_ws_users (s : RoomManager) (rid : String) :
    (delete_room s rid).1.ws_users = s.ws_users := by
  unfold delete_room
  split <;> rfl

/-- Membership in the successfully-sent list of the broadcast sweep:
exactly the non-excluded connections whose send succeeded, independently
of any failure among the others. -/
theorem sweep_sent_mem (exclude_ws : Option Conn) (sendOk : Conn → Bool)
    (l : List Conn) (c : Conn) :
    c ∈ (sweep exclude_ws sendOk l).1 ↔
      (c ∈ l ∧ some c ≠ exclude_ws ∧ sendOk c = true) := by
  induction l with
  | nil => simp [sweep]
  | cons ws rest ih =>
    rcases hsw : sweep exclude_ws sendOk rest with ⟨sent, disc⟩
    rw [hsw] at ih
    simp only [sweep, hsw]
    by_cases hex : some ws = exclude_ws
    · rw [if_pos hex]
      simp only [ih, List.mem_cons]
      constructor
      · rintro ⟨hc, hne, hok⟩
        exact ⟨Or.inr hc, hne, hok⟩
      · rintro ⟨hc | hc, hne, hok⟩
        · exact absurd hex (hc ▸ hne)
        · exact ⟨hc, hne, hok⟩
    · rw [if_neg hex]
      by_cases hok : sendOk ws = true
      · rw [if_pos hok]
        simp only [List.mem_cons, ih]
        constructor
        · rintro (hc | ⟨hc, hne, hok'⟩)
          · exact ⟨Or.inl hc, hc ▸ hex, hc ▸ hok⟩
          · exact ⟨Or.inr hc, hne, hok'⟩
        · rintro ⟨hc | hc, hne, hok'⟩
          · exact Or.inl hc
          · exact Or.inr ⟨hc, hne, hok'⟩
      · rw [if_neg hok]
        simp only [ih, List.mem_cons]
        constructor
        · rintro ⟨hc, hne, hok'⟩
          exact ⟨Or.inr hc, hne, hok'⟩
        · rintro ⟨hc | hc, hne, hok'⟩
          · exact absurd (hc ▸ hok') hok
          · exact ⟨hc, hne, hok'⟩

/-- A `leave_room` whose connection's association chain resolves to room
`rid` removes the connection from `rid`'s connection set. -/
theorem leave_removes_conn (s : RoomManager) (ws : Conn) (uid : String)
    (rid : String) (room : Room)
    (hws : alookup s.ws_users ws = some uid)
    (hur : alookup s.user_rooms uid = some rid)
    (hroom : get_room s rid = some room) :
    ws ∉ get_connections (leave_room s ws).1 rid := by
  unfold leave_room
  simp only [hws, hur, hroom]
  split
  · unfold get_connections
    rw [delete_room_connections _ _ { room with users := aerase room.users uid }
        (by rw [alookup_ainsert]; simp)]
    rw [alookup_aerase, if_pos rfl]
    simp
  · exact not_mem_connDiscard _ _ _

/-- Claim C1, corrected: in `join_room` the capacity check precedes the
reconnect and host-re-join resolutions, so a join on a room whose user
mapping has reached `max_users` returns absent on every path (reconnect
and host re-join included) and leaves the state unchanged. -/
theorem spec_C1 (s : RoomManager) (room_id user_name : String) (ws : Conn)
    (now : String) (room : Room)
    (hroom : get_room s room_id = some room)
    (hfull : (room.users.length : Int) ≥ room.max_users) :
    join_room s room_id user_name ws now = (s, none) := by
  unfold join_room
  simp only [hroom]
  rw [if_pos hfull]

/-- Witness for C1 at a concrete full room. -/
theorem spec_C1_witness :
    join_room sFullW "f" "Xavier" 0 "t1" = (sFullW, none) :=
  spec_C1 sFullW "f" "Xavier" 0 "t1" roomFullW (by decide) (by decide)

/-- Counterexample to C1 as stated: room "0" of `sDemo2` is at capacity,
websocket 0 is associated with a member of the room (Bob, id "2"), and a
host user named "Alice" is present, yet both the reconnect join on
websocket 0 and the host re-join as "Alice" on a fresh websocket are
rejected with absent. -/
theorem spec_C1_counterexample :
    alookup sDemo2.ws_users 0 = some "2" ∧
    (get_room sDemo2 "0").map
      (fun room => decide ((room.users.length : Int) ≥ room.max_users)) = some true ∧
    (get_room sDemo2 "0").map
      (fun room => (alookup room.users "2").isSome) = some true ∧
    (get_room sDemo2 "0").map
      (fun room => (room.users.find? (fun p => p.2.name == "Alice" && p.2.is_host)).isSome)
      = some true ∧
    join_room sDemo2 "0" "Bob" 0 "t2" = (sDemo2, none) ∧
    join_room sDemo2 "0" "Alice" 1 "t2" = (sDemo2, none) := by
  decide

/-- Claim C4: `create_room` always succeeds and the returned room holds
exactly one user, that user has the host flag set, the room's `host_id`
is that user's id, and the snapshot's `user_count` is 1. -/
theorem spec_C4 (s : RoomManager) (name host_name language code : String)
    (max_users : Int) (is_public : Bool) (now : String) :
    ∃ uid host,
      (create_room s name host_name language code max_users is_public now).2.users
        = [(uid, host)] ∧
      host.is_host = true ∧
      host.id = uid ∧
      (create_room s name host_name language code max_users is_public now).2.host_id
        = uid ∧
      ((create_room s name host_name language code max_users is_public now).2.to_dict).user_count
        = 1 :=
  ⟨_, _, rfl, rfl, rfl, rfl, rfl⟩

/-- Claim C8: a create-room request with `max_users` outside [2, 50] is
rejected by model validation before any state mutation (the manager state
— rooms, users, color counter — is returned untouched), while a request
inside the bounds (with non-empty names) is handed to `create_room`. -/
theorem spec_C8 (s : RoomManager) (name host_name language code : String)
    (max_users : Int) (is_public : Bool) (now : String) :
    ((max_users < 2 ∨ 50 < max_users) →
      create_room_endpoint s name host_name language code max_users is_public now
        = (s, CreateRoomResponse.validationError)) ∧
    (2 ≤ max_users → max_users ≤ 50 → 1 ≤ name.length → 1 ≤ host_name.length →
      create_room_endpoint s name host_name language code max_users is_public now
        = ((create_room s name host_name language code max_users is_public now).1,
           CreateRoomResponse.ok
             (create_room s name host_name language code max_users is_public now).2.to_dict)) := by
  constructor
  · intro hbad
    unfold create_room_endpoint
    rw [if_neg]
    rintro ⟨-, -, h2, h50⟩
    rcases hbad with hb | hb <;> omega
  · intro h2 h50 hn hh
    unfold create_room_endpoint
    rw [if_pos ⟨hn, hh, h2, h50⟩]

/-- Witness for C8: `max_users = 100` is rejected with the state
untouched; `max_users = 10` goes through to `create_room`. -/
theorem spec_C8_witness :
    create_room_endpoint RoomManager.init "demo" "Alice" "Python" "" 100 true "t"
      = (RoomManager.init, CreateRoomResponse.validationError) ∧
    create_room_endpoint RoomManager.init "demo" "Alice" "Python" "" 10 true "t"
      = ((create_room RoomManager.init "demo" "Alice" "Python" "" 10 true "t").1,
         CreateRoomResponse.ok
           (create_room RoomManager.init "demo" "Alice" "Python" "" 10 true "t").2.to_dict) :=
  ⟨(spec_C8 RoomManager.init "demo" "Alice" "Python" "" 100 true "t").1
      (Or.inr (by decide)),
   (spec_C8 RoomManager.init "demo" "Alice" "Python" "" 10 true "t").2
      (by decide) (by decide) (by decide) (by decide)⟩

/-- Claim C9: `update_code` and `update_language` return false and leave
the state unchanged when the room is absent; when the room exists they
return true and replace exactly the `code` (resp. `language`) field of
that room, leaving its other fields and user mapping, every other room,
the connection sets, the user/connection maps and the color counter
unchanged. -/
theorem spec_C9 (s : RoomManager) (room_id new_code new_language : String) :
    (get_room s room_id = none →
      update_code s room_id new_code = (s, false) ∧
      update_language s room_id new_language = (s, false)) ∧
    (∀ room, get_room s room_id = some room →
      (update_code s room_id new_code).2 = true ∧
      get_room (update_code s room_id new_code).1 room_id
        = some { room with code := new_code } ∧
      (∀ rid', rid' ≠ room_id →
        get_room (update_code s room_id new_code).1 rid' = get_room s rid') ∧
      (update_code s room_id new_code).1.connections = s.connections ∧
      (update_code s room_id new_code).1.user_rooms = s.user_rooms ∧
      (update_code s room_id new_code).1.ws_users = s.ws_users ∧
      (update_code s room_id new_code).1.color_index = s.color_index ∧
      (update_language s room_id new_language).2 = true ∧
      get_room (update_language s room_id new_language).1 room_id
        = some { room with language := new_language } ∧
      (∀ rid', rid' ≠ room_id →
        get_room (update_language s room_id new_language).1 rid' = get_room s rid') ∧
      (update_language s room_id new_language).1.connections = s.connections ∧
      (update_language s room_id new_language).1.user_rooms = s.user_rooms ∧
      (update_language s room_id new_language).1.ws_users = s.ws_users ∧
      (update_language s room_id new_language).1.color_index = s.color_index) := by
  constructor
  · intro h
    constructor
    · unfold update_code
      rw [h]
    · unfold update_language
      rw [h]
  · intro room h
    have hc : update_code s room_id new_code =
        ({ s with rooms := ainsert s.rooms room_id { room with code := new_code } },
         true) := by
      unfold update_code
      rw [h]
    have hl : update_language s room_id new_language =
        ({ s with rooms := ainsert s.rooms room_id { room with language := new_language } },
         true) := by
      unfold update_language
      rw [h]
    rw [hc, hl]
    refine ⟨rfl, ?_, ?_, rfl, rfl, rfl, rfl, rfl, ?_, ?_, rfl, rfl, rfl, rfl⟩
    · show alookup (ainsert s.rooms room_id _) room_id = _
      rw [alookup_ainsert, if_pos rfl]
    · intro rid' hne
      show alookup (ainsert s.rooms room_id _) rid' = _
      rw [alookup_ainsert, if_neg (fun hh => hne hh.symm)]
      rfl
    · show alookup (ainsert s.rooms room_id _) room_id = _
      rw [alookup_ainsert, if_pos rfl]
    · intro rid' hne
      show alookup (ainsert s.rooms room_id _) rid' = _
      rw [alookup_ainsert, if_neg (fun hh => hne hh.symm)]
      rfl

/-- Witness for C9 at `sDemo1`: updating an absent room is a no-op with
false, updating room "0" rewrites exactly its code field. -/
theorem spec_C9_witness :
    update_code sDemo1 "zzz" "x = 1" = (sDemo1, false) ∧
    (update_code sDemo1 "0" "x = 1").2 = true ∧
    (update_code sDemo1 "0" "x = 1").1.connections = sDemo1.connections :=
  ⟨((spec_C9 sDemo1 "zzz" "x = 1" "Go").1 (by decide)).1,
   (((spec_C9 sDemo1 "0" "x = 1" "Go").2
      ((create_room RoomManager.init "demo" "Alice" "Python" "" 2 true "t0").2)
      (by decide)).1),
   (((spec_C9 sDemo1 "0" "x = 1" "Go").2
      ((create_room RoomManager.init "demo" "Alice" "Python" "" 2 true "t0").2)
      (by decide)).2.2.2.1)⟩

/-- Claim C10: in every reachable state every registered room has at
least one user, so the REST delete endpoint never reaches its success
branch: for every room id it answers not-found or forbidden and returns
the state unchanged. -/
theorem spec_C10 (s : RoomManager) (h : Reachable s) (room_id : String) :
    (delete_room_endpoint s room_id).1 = s ∧
    ((delete_room_endpoint s room_id).2 = DeleteRoomResponse.notFound ∨
     (delete_room_endpoint s room_id).2 = DeleteRoomResponse.forbidden) := by
  unfold delete_room_endpoint
  cases hroom : get_room s room_id with
  | none => exact ⟨rfl, Or.inl rfl⟩
  | some room =>
    have hpos : room.users.length > 0 :=
      List.length_pos.mpr (inv_reachable h room_id room hroom)
    simp [hpos]

/-- Witness for C10 at the reachable state `sDemo1`. -/
theorem spec_C10_witness :
    (delete_room_endpoint sDemo1 "0").1 = sDemo1 ∧
    ((delete_room_endpoint sDemo1 "0").2 = DeleteRoomResponse.notFound ∨
     (delete_room_endpoint sDemo1 "0").2 = DeleteRoomResponse.forbidden) :=
  spec_C10 sDemo1
    (Reachable.step Reachable.init
      (Step.create RoomManager.init "demo" "Alice" "Python" "" 2 true "t0")) "0"

/-- A successful `leave_room` removes the connection from `ws_users`. -/
theorem leave_room_ws_users (s : RoomManager) (ws : Conn) (s' : RoomManager)
    (rid : String) (u : Option User)
    (hleave : leave_room s ws = (s', some (rid, u))) :
    s'.ws_users = aerase s.ws_users ws := by
  unfold leave_room at hleave
  cases hws : alookup s.ws_users ws with
  | none =>
    rw [hws] at hleave
    simp at hleave
  | some uid =>
    simp only [hws] at hleave
    cases hur : alookup s.user_rooms uid with
    | none =>
      rw [hur] at hleave
      simp at hleave
    | some rid0 =>
      simp only [hur] at hleave
      cases hrm : get_room s rid0 with
      | none =>
        rw [hrm] at hleave
        simp at hleave
      | some room0 =>
        simp only [hrm, Prod.mk.injEq, Option.some.injEq] at hleave
        obtain ⟨hs5, -, -⟩ := hleave
        subst hs5
        split
        · rw [delete_room_ws_users]
        · rfl

/-- A `leave_room` that pops the last user of a room deletes the room. -/
theorem leave_last_user_deletes (s : RoomManager) (ws : Conn) (s' : RoomManager)
    (rid : String) (u : User) (room : Room)
    (hleave : leave_room s ws = (s', some (rid, some u)))
    (hroom : get_room s rid = some room)
    (hone : room.users.length = 1) :
    get_room s' rid = none := by
  unfold leave_room at hleave
  cases hws : alookup s.ws_users ws with
  | none =>
    rw [hws] at hleave
    simp at hleave
  | some uid =>
    simp only [hws] at hleave
    cases hur : alookup s.user_rooms uid with
    | none =>
      rw [hur] at hleave
      simp at hleave
    | some rid0 =>
      simp only [hur] at hleave
      cases hrm : get_room s rid0 with
      | none =>
        rw [hrm] at hleave
        simp at hleave
      | some room0 =>
        simp only [hrm, Prod.mk.injEq, Option.some.injEq] at hleave
        obtain ⟨hs5, hrid, hpop⟩ := hleave
        subst hrid
        have hroom0 : room0 = room := by
          rw [hroom] at hrm
          exact (Option.some.inj hrm).symm
        subst hroom0
        have hempty : aerase room0.users uid = [] :=
          aerase_singleton room0.users uid u hpop hone
        rw [if_pos (by simp [hempty])] at hs5
        subst hs5
        unfold get_room
        rw [delete_room_rooms_lookup, if_pos rfl]

/-- Claim C2: in every reachable state a registered room has a non-empty
user mapping, and a `leave_room` that removes the only user of a room
deletes the room, so the subsequent `get_room` returns absent. -/
theorem spec_C2 (s : RoomManager) (h : Reachable s) :
    (∀ rid room, get_room s rid = some room → room.users ≠ []) ∧
    (∀ ws s' rid u room, leave_room s ws = (s', some (rid, some u)) →
      get_room s rid = some room → room.users.length = 1 →
      get_room s' rid = none) := by
  constructor
  · exact fun rid room hlook => inv_reachable h rid room hlook
  · exact fun ws s' rid u room hleave hroom hone =>
      leave_last_user_deletes s ws s' rid u room hleave hroom hone

/-- Witness for C2 on the reachable state `sA2` (room "0", sole user the
host Alice on websocket 0): her leave deletes the room. -/
theorem spec_C2_witness :
    roomA2.users ≠ [] ∧ get_room sFinalA "0" = none :=
  ⟨(spec_C2 sA2
      (Reachable.step
        (Reachable.step Reachable.init
          (Step.create RoomManager.init "demo" "Alice" "Python" "" 10 true "t"))
        (Step.join sA1 "0" "Alice" 0 "t"))).1 "0" roomA2 (by decide),
   (spec_C2 sA2
      (Reachable.step
        (Reachable.step Reachable.init
          (Step.create RoomManager.init "demo" "Alice" "Python" "" 10 true "t"))
        (Step.join sA1 "0" "Alice" 0 "t"))).2 0 sFinalA "0" aliceA roomA2
      (by decide) (by decide) (by decide)⟩

/-- Claim C6: `leave_room` on a connection with no associated user
returns absent and leaves the state bit-for-bit unchanged; after a
successful leave the connection's association is gone, so a second leave
on the same connection returns absent and changes nothing — duplicate
cleanup triggers converge to one effective leave. -/
theorem spec_C6 (s : RoomManager) (ws : Conn) :
    (alookup s.ws_users ws = none → leave_room s ws = (s, none)) ∧
    (∀ s' rid u, leave_room s ws = (s', some (rid, u)) →
      leave_room s' ws = (s', none)) := by
  constructor
  · intro h
    unfold leave_room
    rw [h]
  · intro s' rid u hleave
    have hnone : alookup s'.ws_users ws = none := by
      rw [leave_room_ws_users s ws s' rid u hleave, alookup_aerase, if_pos rfl]
    unfold leave_room
    rw [hnone]

/-- Witness for C6: on `sA2`, websocket 5 was never associated, so its
leave is a no-op; after websocket 0's successful leave, a second leave on
websocket 0 is a no-op on the resulting state. -/
theorem spec_C6_witness :
    leave_room sA2 5 = (sA2, none) ∧
    leave_room sFinalA 0 = (sFinalA, none) :=
  ⟨(spec_C6 sA2 5).1 (by decide),
   (spec_C6 sA2 0).2 sFinalA "0" (some aliceA) (by decide)⟩

/-- A join under the host's display name on an unassociated connection of
a single-user room resolves to the existing host user: the result is
that user, the registry is untouched, and the connection becomes
associated with the host's id. -/
theorem join_room_host_result (s : RoomManager) (rid N now : String) (ws : Conn)
    (room : Room) (hostId : String) (host : User)
    (hroom : get_room s rid = some room)
    (husers : room.users = [(hostId, host)])
    (hname : host.name = N)
    (hhost : host.is_host = true)
    (hcap : ¬ ((room.users.length : Int) ≥ room.max_users))
    (hws : alookup s.ws_users ws = none) :
    (join_room s rid N ws now).2 = some host ∧
    (join_room s rid N ws now).1.rooms = s.rooms ∧
    (join_room s rid N ws now).1.ws_users = ainsert s.ws_users ws host.id := by
  have hfind : room.users.find? (fun p => p.2.name == N && p.2.is_host)
      = some (hostId, host) := by
    rw [husers]
    simp [List.find?, hname, hhost]
  unfold join_room join_as_host_or_new
  simp only [hroom, hws, if_neg hcap, hfind]
  refine ⟨trivial, ?_, ?_⟩
  · split <;> rfl
  · split <;> rfl

/-- Claim C5: two sequential joins under the host's name from two
distinct fresh connections both resolve to the same stored host user,
mutate none of its fields, and the room's user mapping stays exactly the
single host entry throughout. -/
theorem spec_C5 (s : RoomManager) (rid N now1 now2 : String) (ws1 ws2 : Conn)
    (room : Room) (hostId : String) (host : User)
    (hroom : get_room s rid = some room)
    (husers : room.users = [(hostId, host)])
    (hname : host.name = N)
    (hhost : host.is_host = true)
    (hcap : (1 : Int) < room.max_users)
    (hws1 : alookup s.ws_users ws1 = none)
    (hws2 : alookup s.ws_users ws2 = none)
    (hwsne : ws1 ≠ ws2) :
    (join_room s rid N ws1 now1).2 = some host ∧
    (join_room (join_room s rid N ws1 now1).1 rid N ws2 now2).2 = some host ∧
    get_room (join_room (join_room s rid N ws1 now1).1 rid N ws2 now2).1 rid
      = some room := by
  have hlen : room.users.length = 1 := by
    rw [husers]
    rfl
  have hcap' : ¬ ((room.users.length : Int) ≥ room.max_users) := by
    rw [hlen]
    push_cast
    omega
  obtain ⟨h1r, h1rooms, h1ws⟩ :=
    join_room_host_result s rid N now1 ws1 room hostId host hroom husers hname
      hhost hcap' hws1
  have hroom1 : get_room (join_room s rid N ws1 now1).1 rid = some room := by
    unfold get_room
    rw [h1rooms]
    exact hroom
  have hws2' : alookup (join_room s rid N ws1 now1).1.ws_users ws2 = none := by
    rw [h1ws, alookup_ainsert, if_neg hwsne]
    exact hws2
  obtain ⟨h2r, h2rooms, h2ws⟩ :=
    join_room_host_result _ rid N now2 ws2 room hostId host hroom1 husers hname
      hhost hcap' hws2'
  refine ⟨h1r, h2r, ?_⟩
  unfold get_room
  rw [h2rooms, h1rooms]
  exact hroom

/-- Witness for C5 on `sA1` with websockets 0 and 1. -/
theorem spec_C5_witness :
    (join_room sA1 "0" "Alice" 0 "t").2 = some aliceA ∧
    (join_room (join_room sA1 "0" "Alice" 0 "t").1 "0" "Alice" 1 "t2").2
      = some aliceA ∧
    get_room (join_room (join_room sA1 "0" "Alice" 0 "t").1 "0" "Alice" 1 "t2").1 "0"
      = some roomA2 :=
  spec_C5 sA1 "0" "Alice" "t" "t2" 0 1 roomA2 "1" aliceA (by decide) (by decide)
    (by decide) (by decide) (by decide) (by decide) (by decide) (by decide)

/-- In the host-re-join and new-participant paths of a join to `roomB`,
the connection is added to `roomB`'s set and every other room's
connection entry is untouched. -/
theorem join_aux_conns (s : RoomManager) (room : Room)
    (roomA roomB user_name now : String) (ws : Conn)
    (hne : ¬ roomB = roomA)
    (hin : ws ∈ get_connections s roomA) :
    ws ∈ get_connections (join_as_host_or_new s room roomB user_name ws now).1 roomA ∧
    ws ∈ get_connections (join_as_host_or_new s room roomB user_name ws now).1 roomB := by
  unfold join_as_host_or_new
  split
  · dsimp only
    constructor
    · split
      · unfold get_connections
        dsimp only
        rw [connAdd_other _ _ _ _ hne]
        exact hin
      · unfold get_connections
        dsimp only
        rw [connAdd_other _ _ _ _ hne]
        exact hin
    · split
      · exact mem_connAdd_self _ _ _
      · exact mem_connAdd_self _ _ _
  · dsimp only
    constructor
    · unfold get_connections
      dsimp only
      rw [connAdd_other _ _ _ _ hne]
      exact hin
    · exact mem_connAdd_self _ _ _

/-- Claim C3, corrected: `join_room` never detaches a connection from its
previous room's connection set — after a connection in room A's set
successfully joins room B, it is in both A's and B's sets, so a
connection can be attached to several rooms' sets at once. -/
theorem spec_C3 (s : RoomManager) (roomA roomB user_name now : String)
    (ws : Conn) (u : User)
    (hne : roomB ≠ roomA)
    (hin : ws ∈ get_connections s roomA)
    (hjoin : (join_room s roomB user_name ws now).2 = some u) :
    ws ∈ get_connections (join_room s roomB user_name ws now).1 roomA ∧
    ws ∈ get_connections (join_room s roomB user_name ws now).1 roomB := by
  unfold join_room at hjoin ⊢
  cases hg : get_room s roomB with
  | none =>
    rw [hg] at hjoin
    simp at hjoin
  | some room =>
    simp only [hg] at hjoin ⊢
    by_cases hcap : (room.users.length : Int) ≥ room.max_users
    · rw [if_pos hcap] at hjoin
      simp at hjoin
    · rw [if_neg hcap] at hjoin
      rw [if_neg hcap]
      cases hwu : alookup s.ws_users ws with
      | some uid =>
        simp only [hwu] at hjoin ⊢
        cases hmem : alookup room.users uid with
        | some user =>
          simp only [hmem] at hjoin ⊢
          constructor
          · unfold get_connections
            dsimp only
            rw [connAdd_other _ _ _ _ hne]
            exact hin
          · exact mem_connAdd_self _ _ _
        | none =>
          simp only [hmem]
          exact join_aux_conns s room roomA roomB user_name now ws hne hin
      | none =>
        simp only [hwu]
        exact join_aux_conns s room roomA roomB user_name now ws hne hin

/-- Witness for C3 on the cross-room trace: websocket 0, already in room
"0"'s set, joins room "3" as Carol and ends up in both sets. -/
theorem spec_C3_witness :
    0 ∈ get_connections (join_room sX3 "3" "Carol" 0 "t").1 "0" ∧
    0 ∈ get_connections (join_room sX3 "3" "Carol" 0 "t").1 "3" :=
  spec_C3 sX3 "0" "3" "Carol" "t" 0 carolX (by decide) (by decide) (by decide)

/-- Counterexample to C3 as stated: in `sX4` websocket 0 joined room "0"
and then successfully joined room "3", yet it is still a member of room
"0"'s connection set. -/
theorem spec_C3_counterexample :
    (join_room sX3 "3" "Carol" 0 "t").2.isSome = true ∧
    0 ∈ get_connections sX4 "0" ∧
    0 ∈ get_connections sX4 "3" := by
  decide

/-- Claim C7, corrected: the broadcast sweep attempts a send to every
connection of the room except the excluded one — one connection's failure
never blocks delivery to the others — and each failed connection is then
passed to `leave_room`; `leave_room` prunes the connection from the
broadcast room's set whenever the connection's user association points to
that room (a stale connection associated with another room is not pruned
from the broadcast room's set). -/
theorem spec_C7 (s : RoomManager) (room_id : String) (exclude_ws : Option Conn)
    (sendOk : Conn → Bool) (ws : Conn) (uid : String) (room : Room)
    (hdisc : (sweep exclude_ws sendOk (get_connections s room_id)).2 = [ws])
    (hws : alookup s.ws_users ws = some uid)
    (hur : alookup s.user_rooms uid = some room_id)
    (hroom : get_room s room_id = some room) :
    (∀ c : Conn, c ∈ (broadcast_to_room s room_id exclude_ws sendOk).2 ↔
      (c ∈ get_connections s room_id ∧ some c ≠ exclude_ws ∧ sendOk c = true)) ∧
    ws ∉ get_connections (broadcast_to_room s room_id exclude_ws sendOk).1 room_id := by
  unfold broadcast_to_room
  rcases hsw : sweep exclude_ws sendOk (get_connections s room_id) with ⟨sent, disc⟩
  rw [hsw] at hdisc
  simp only at hdisc
  subst hdisc
  simp only [hsw]
  constructor
  · intro c
    have hmem := sweep_sent_mem exclude_ws sendOk (get_connections s room_id) c
    rw [hsw] at hmem
    exact hmem
  · exact leave_removes_conn s ws uid room_id room hws hur hroom

/-- Witness for C7 on `sW`: websocket 0 (associated with the room's user)
fails, websocket 1 succeeds; 0 is pruned from the room's set and 1 was
reached. -/
theorem spec_C7_witness :
    0 ∉ get_connections (broadcast_to_room sW "r" none sendW).1 "r" ∧
    (1 ∈ (broadcast_to_room sW "r" none sendW).2 ↔
      (1 ∈ get_connections sW "r" ∧ some 1 ≠ (none : Option Conn) ∧ sendW 1 = true)) :=
  ⟨(spec_C7 sW "r" none sendW 0 "u0" roomW (by decide) (by decide) (by decide)
      (by decide)).2,
   (spec_C7 sW "r" none sendW 0 "u0" roomW (by decide) (by decide) (by decide)
      (by decide)).1 1⟩

/-- Counterexample to C7 as stated: in `sX4` websocket 0 sits in room
"0"'s connection set but its associated user lives in room "3"; a
broadcast to room "0" in which its send fails passes it to `leave_room`,
which prunes it from room "3" instead — after the sweep it is still in
room "0"'s connection set. -/
theorem spec_C7_counterexample :
    (sweep none (fun _ => false) (get_connections sX4 "0")).2 = [0] ∧
    0 ∈ get_connections (broadcast_to_room sX4 "0" none (fun _ => false)).1 "0" := by
  decide
